import Mathlib

/-!
Shallow embedding of the MySQL analytics toolkit
(`examples/mysql_analytics/toolkits/mysql_schema_toolkit.py`) and of the
web-UI guard wiring (`examples/mysql_analytics/run_webui_agents.py`,
`examples/mysql_analytics/run_webui_clean.py`).

Python strings are modelled as Lean `String`; all string manipulation is
done through structurally recursive helpers over `List Char` so that every
definition evaluates by `decide`/`rfl`.  The subprocess boundary
(`subprocess.check_output`) is modelled as an oracle parameter
`proc : List String → EnvMap → ProcResult` receiving the argument vector
and the environment, and returning the exit code together with the decoded
combined stdout/stderr text.
-/

namespace MysqlToolkit

/-- Python `str.strip()` whitespace set (ASCII part): space, \t, \n, \r, \x0b, \x0c. -/
def isPyWs (c : Char) : Bool :=
  c = ' ' || c = '\t' || c = '\n' || c = '\r' || c = '\x0b' || c = '\x0c'

/-- Python `str.strip()` on the ASCII whitespace set. -/
def pyStrip (s : String) : String :=
  ⟨((s.data.dropWhile isPyWs).reverse.dropWhile isPyWs).reverse⟩

/-- Python `str.rstrip(chars)` for a single-character `chars` set:
drop every trailing occurrence of `c`. -/
def pyRstripChar (s : String) (c : Char) : String :=
  ⟨(s.data.reverse.dropWhile (· = c)).reverse⟩

/-- Split a character list at every occurrence of `sep` (keeping empty pieces),
like Python `str.split(sep)` for a one-character separator. -/
def splitOnCharAux (sep : Char) : List Char → List Char → List (List Char)
  | [], acc => [acc.reverse]
  | c :: rest, acc =>
      if c = sep then acc.reverse :: splitOnCharAux sep rest []
      else splitOnCharAux sep rest (c :: acc)

def splitOnChar (sep : Char) (s : String) : List String :=
  (splitOnCharAux sep s.data []).map (fun l => ⟨l⟩)

/-- Python `str.splitlines()` restricted to `\n` line boundaries, which is the
only terminator the toolkit's parsers ever see. Python drops a final empty
piece after a trailing newline; the toolkit always filters blank lines right
after splitting, so splitting on `\n` and keeping empties is equivalent there,
but we model the trailing-piece rule faithfully anyway. -/
def pySplitlines (s : String) : List String :=
  if s.data = [] then []
  else
    let pieces := (splitOnCharAux '\n' s.data []).map (fun l => (⟨l⟩ : String))
    if pieces.getLast? = some "" then pieces.dropLast else pieces

/-- Contiguous-sublist test over lists (needle first). -/
def listInfixOf (needle : List Char) : List Char → Bool
  | [] => needle.isEmpty
  | h :: t => needle.isPrefixOf (h :: t) || listInfixOf needle t

/-- Python `sub in s` substring test. -/
def strContains (s sub : String) : Bool :=
  listInfixOf sub.data s.data

/-- Python `str.lower()` (ASCII). -/
def pyLower (s : String) : String := ⟨s.data.map Char.toLower⟩

/-- Python `str.upper()` (ASCII). -/
def pyUpper (s : String) : String := ⟨s.data.map Char.toUpper⟩

/-- Python `str.startswith(p)`. -/
def pyStartswith (s p : String) : Bool := p.data.isPrefixOf s.data

/-- Python `str.endswith(p)` for a single-character suffix. -/
def pyEndswithChar (s : String) (c : Char) : Bool := s.data.getLast? = some c

/-- Characters kept by `re.sub(r"[^A-Za-z0-9_]", "_", s)`: the class
`[A-Za-z0-9_]`, written via ASCII codes (A-Z is 65-90, a-z is 97-122,
0-9 is 48-57, _ is 95). -/
def isWordChar (c : Char) : Bool :=
  (65 ≤ c.toNat && c.toNat ≤ 90) || (97 ≤ c.toNat && c.toNat ≤ 122) ||
    (48 ≤ c.toNat && c.toNat ≤ 57) || c.toNat = 95

/-- Test `re.match(r"[A-Za-z]", x)` on a single character: the class `[A-Za-z]`. -/
def isLetterAZ (c : Char) : Bool :=
  (65 ≤ c.toNat && c.toNat ≤ 90) || (97 ≤ c.toNat && c.toNat ≤ 122)

/-- Python `a or b` for strings: `a` when non-empty, else `b`. -/
def pyOrStr (a b : String) : String := if a = "" then b else a

/-- Python `a or b` where `a : str | None` and `b : str | None`. -/
def pyOrOpt (a b : Option String) : Option String :=
  match a with
  | some s => if s = "" then b else some s
  | none => b

/-- Python truthiness of a `str | None` value. -/
def optTruthy (a : Option String) : Bool :=
  match a with
  | some s => s ≠ ""
  | none => false

/-! ### Data model (`MysqlConn`, schema snapshots, toolkit state) -/

/-- The `MysqlConn` dataclass. -/
structure MysqlConn where
  host : String := ""
  port : Int := 3306
  user : String := ""
  password : String := ""
  database : Option String := none
deriving DecidableEq, Repr

/-- One entry of a snapshot's `columns` list. -/
structure ColumnInfo where
  table : String
  name : String
  key : String
  type : String
  nullable : String
deriving DecidableEq, Repr

/-- One entry of a snapshot's `fks` list. -/
structure FkInfo where
  table : String
  column : String
  ref_table : String
  ref_column : String
deriving DecidableEq, Repr

/-- A schema snapshot (`meta` dict built by `introspect_schema`). -/
structure SchemaMeta where
  database : String
  tables : List String
  columns : List ColumnInfo
  fks : List FkInfo
deriving DecidableEq, Repr

/-- Errors raised by the toolkit: `ValueError` vs `RuntimeError`, with message. -/
inductive ToolError where
  | valueError (msg : String)
  | runtimeError (msg : String)
deriving DecidableEq, Repr

/-! ### SQL shell runner (`_run_mysql`) -/

/-- A process environment, as a partial map from variable names to values. -/
def EnvMap := String → Option String

/-- Result of the external `mysql` process: exit code and decoded combined
stdout/stderr text (`stderr=subprocess.STDOUT`). -/
structure ProcResult where
  exitCode : Int
  output : String

/-- The subprocess boundary: receives the argument vector and environment,
returns the process result. -/
def ProcOracle := List String → EnvMap → ProcResult

/-- Argument vector built by `_run_mysql` (lines 28-43): base flags, `-N`
inserted at index 7 when no header is wanted, `-D db` appended when the
resolved database is truthy. -/
def runMysqlArgs (conn : MysqlConn) (sql : String) (database : Option String)
    (include_header : Bool) : List String :=
  let db := pyOrOpt database conn.database
  let args := ["mysql", "-h", conn.host, "-P", toString conn.port, "-u", conn.user,
               "-B", "-e", sql]
  let args := if include_header then args else args.take 7 ++ ["-N"] ++ args.drop 7
  if optTruthy db then args ++ ["-D", db.getD ""] else args

/-- Environment passed to the subprocess: a copy of the ambient environment
with `MYSQL_PWD` set to the connection password (lines 44-46). -/
def runMysqlEnv (base : EnvMap) (conn : MysqlConn) : EnvMap :=
  fun k => if k = "MYSQL_PWD" then some conn.password else base k

/-- Embedding of `_run_mysql` (lines 19-52): validates the connection, invokes the `mysql`
CLI through the oracle, returns decoded output or wraps a non-zero exit into
a `RuntimeError`. -/
def runMysql (conn : MysqlConn) (sql : String) (database : Option String := none)
    (include_header : Bool := false) (base : EnvMap) (proc : ProcOracle) :
    Except ToolError String :=
  if conn.host = "" ∨ conn.user = "" ∨ conn.password = "" then
    .error (.valueError "MySQL connection is not fully configured (host/user/password required)")
  else
    let r := proc (runMysqlArgs conn sql database include_header) (runMysqlEnv base conn)
    if r.exitCode = 0 then .ok r.output
    else .error (.runtimeError ("mysql CLI failed: " ++ r.output))

/-! ### Pure helpers of the toolkit class -/

/-- Embedding of `_sanitize_identifier` (lines 70-76).  The Python parameter is named
`prefix`; here it is `pre`. -/
def _sanitize_identifier (name : String) (pre : String := "T") : String :=
  let s := pyStrip name
  let s : String := ⟨s.data.map (fun c => if isWordChar c then c else '_')⟩
  if s = "" then pre ++ "_"
  else if ¬ isLetterAZ (s.data.headD ' ') then pre ++ "_" ++ s
  else s

/-- Embedding of `_normalize_type` (lines 78-90). -/
def _normalize_type (t : String) : String :=
  let tl := pyLower t
  if strContains tl "int" then "int"
  else if ["decimal", "numeric", "float", "double", "real"].any (strContains tl) then "float"
  else if ["bool", "tinyint(1)"].any (strContains tl) then "bool"
  else if ["date", "time", "year", "timestamp"].any (strContains tl) then "datetime"
  else if ["char", "text", "blob", "binary", "json"].any (strContains tl) then "string"
  else "string"

/-! ### Database resolution and the query/export executors -/

/-- Embedding of `db = database or self.conn.database; if not db: raise ValueError(msg)` —
the shared resolution prologue (the message differs per method). -/
def resolveDb (msg : String) (database connDb : Option String) : Except ToolError String :=
  match pyOrOpt database connDb with
  | some d => if d = "" then .error (.valueError msg) else .ok d
  | none => .error (.valueError msg)

/-- Parsed result of `exec_sql`. -/
structure ExecResult where
  columns : List String
  rows : List (List String)
  row_count : Nat
deriving DecidableEq, Repr

/-- Validation and LIMIT-wrapping portion of `exec_sql` (lines 390-397):
trim, drop trailing semicolons, uppercase, require a `SELECT` start, forbid
`" FOR UPDATE"`, and wrap in an outer `LIMIT` when `" LIMIT "` is absent. -/
def execSqlStmt (sql : String) (limit : Int) : Except ToolError String :=
  let stmt := pyRstripChar (pyStrip sql) ';'
  let up := pyUpper stmt
  if ¬ pyStartswith up "SELECT" then .error (.valueError "Only SELECT is allowed in exec_sql")
  else if strContains up " FOR UPDATE" then .error (.valueError "FOR UPDATE is not allowed")
  else if ¬ strContains up " LIMIT " then
    .ok ("SELECT * FROM ( " ++ stmt ++ " ) AS _sub LIMIT " ++ toString limit)
  else .ok stmt

/-- Row parsing of `exec_sql` (lines 399-404). -/
def parseExecOutput (raw : String) : ExecResult :=
  let lines := (pySplitlines raw).filter (fun l => pyStrip l ≠ "")
  match lines with
  | [] => ⟨[], [], 0⟩
  | h :: t => ⟨splitOnChar '\t' h, t.map (splitOnChar '\t'), t.length⟩

/-- Embedding of `exec_sql` (lines 379-404). -/
def exec_sql (conn : MysqlConn) (sql : String) (database : Option String := none)
    (limit : Int := 2000) (base : EnvMap) (proc : ProcOracle) : Except ToolError ExecResult := do
  let db ← resolveDb "database is not set" database conn.database
  let stmt ← execSqlStmt sql limit
  let raw ← runMysql conn stmt (some db) true base proc
  pure (parseExecOutput raw)

/-- Embedding of `os.path.dirname` (POSIX): text up to the last `/`, with trailing slashes
stripped unless the head is all slashes; empty when there is no slash. -/
def pyDirname (p : String) : String :=
  let rev := p.data.reverse
  if rev.contains '/' then
    let head := (rev.dropWhile (fun c => c ≠ '/')).reverse
    if head.all (fun c => c = '/') then ⟨head⟩
    else ⟨(head.reverse.dropWhile (fun c => c = '/')).reverse⟩
  else ""

/-- The file write performed by `export_query_tsv`: the directory handed to
`os.makedirs(..., exist_ok=True)`, the path opened, and the text written. -/
structure WriteEffect where
  dirCreated : String
  path : String
  content : String
deriving DecidableEq, Repr

/-- Statement preparation of `export_query_tsv` (lines 367-371): `exportBase`
is the trim / drop-one-trailing-semicolon part (lines 367-369), `exportStmt`
adds the outer `LIMIT` wrap when a positive cap is given (lines 370-371).
There is no SELECT-only or FOR-UPDATE validation on this path. -/
def exportBase (sql : String) : String :=
  let s := pyStrip sql
  if pyEndswithChar s ';' then ⟨s.data.dropLast⟩ else s

def exportStmt (sql : String) (limit : Option Int) : String :=
  match limit with
  | some n =>
      if n > 0 then "SELECT * FROM ( " ++ exportBase sql ++ " ) AS _sub LIMIT " ++ toString n
      else exportBase sql
  | none => exportBase sql

/-- Embedding of `export_query_tsv` (lines 354-376).  Returns the write effect together
with the function's return value (the path written). -/
def export_query_tsv (conn : MysqlConn) (sql : String) (out_path : String)
    (database : Option String := none) (limit : Option Int := none)
    (base : EnvMap) (proc : ProcOracle) : Except ToolError (WriteEffect × String) := do
  let db ← resolveDb "database is not set" database conn.database
  let raw ← runMysql conn (exportStmt sql limit) (some db) true base proc
  pure (⟨pyOrStr (pyDirname out_path) ".", out_path, raw⟩, out_path)

/-! ### Schema introspection and the cache -/

def SchemaCache := String → Option SchemaMeta

/-- The three catalog queries issued by `introspect_schema` (lines 142-175). -/
def sqlTablesQuery (db : String) : String :=
  "SELECT table_name FROM information_schema.tables WHERE table_schema = '" ++ db ++
    "' ORDER BY table_name;"

def sqlColumnsQuery (db : String) : String :=
  "SELECT table_name, column_name, column_key, data_type, is_nullable " ++
    "FROM information_schema.columns WHERE table_schema = '" ++ db ++
    "' ORDER BY table_name, ordinal_position;"

def sqlFksQuery (db : String) : String :=
  "SELECT table_name, column_name, referenced_table_name, referenced_column_name " ++
    "FROM information_schema.key_column_usage WHERE table_schema = '" ++ db ++
    "' AND referenced_table_name IS NOT NULL;"

/-- Parse the tables listing (line 146). -/
def parseTables (raw : String) : List String :=
  (pySplitlines raw).filterMap (fun t => let s := pyStrip t; if s = "" then none else some s)

/-- Parse the columns listing (lines 155-167): keep rows with exactly 5 fields. -/
def parseColumns (raw : String) : List ColumnInfo :=
  (pySplitlines raw).filterMap (fun line =>
    match splitOnChar '\t' line with
    | [a, b, c, d, e] => some ⟨a, b, c, d, e⟩
    | _ => none)

/-- Parse the foreign-keys listing (lines 176-187): keep rows with exactly 4 fields. -/
def parseFks (raw : String) : List FkInfo :=
  (pySplitlines raw).filterMap (fun line =>
    match splitOnChar '\t' line with
    | [a, b, c, d] => some ⟨a, b, c, d⟩
    | _ => none)

/-- Embedding of `introspect_schema` (lines 136-190): resolve the database, run the three
catalog queries, assemble the snapshot and store it in the cache under the
database name (`self.schema_cache[db] = meta`, an overwrite). -/
def introspect_schema (conn : MysqlConn) (cache : SchemaCache)
    (database : Option String := none) (base : EnvMap) (proc : ProcOracle) :
    Except ToolError (SchemaCache × SchemaMeta) := do
  let db ← resolveDb "database is not set; call set_connection or pass database"
    database conn.database
  let t_raw ← runMysql conn (sqlTablesQuery db) none false base proc
  let c_raw ← runMysql conn (sqlColumnsQuery db) none false base proc
  let f_raw ← runMysql conn (sqlFksQuery db) none false base proc
  let meta : SchemaMeta := ⟨db, parseTables t_raw, parseColumns c_raw, parseFks f_raw⟩
  pure (fun k => if k = db then some meta else cache k, meta)

/-! ### Connection management -/

/-- Mutable attributes of `MysqlSchemaToolkit` touched by the modelled methods. -/
structure ToolkitState where
  conn : MysqlConn
  schema_cache : SchemaCache
  active_tables : List String

/-- Embedding of `set_connection` (lines 93-106): the new connection is stored on the
instance *before* the `SELECT 1;` smoke test runs, so the returned state keeps
the new connection even when the smoke test raises. -/
def set_connection (st : ToolkitState) (host : String) (port : Int) (user : String)
    (password : String) (database : Option String := none) (base : EnvMap)
    (proc : ProcOracle) : Except ToolError String × ToolkitState :=
  let newConn : MysqlConn := ⟨host, port, user, password, database⟩
  let st' := { st with conn := newConn }
  match runMysql newConn "SELECT 1;" none false base proc with
  | .ok _ => (.ok "mysql connection ok", st')
  | .error e => (.error e, st')

/-! ### ER diagram generation (`generate_er_mermaid`, lines 192-232)

The claims quantify over snapshots, so the generator is embedded from the
point where the snapshot `meta` is in hand (line 202 resolves it from the
cache or a fresh introspection; that lookup is not part of the rendering
algorithm). -/

/-- Table-filter resolution (lines 203-204): explicit argument if truthy, else
the stored active selection if non-empty, else all snapshot tables; then
restricted to tables present in the snapshot. -/
def resolveFilter (tables : Option (List String)) (active metaTables : List String) :
    List String :=
  let base :=
    match tables with
    | some l => if l ≠ [] then l else if active ≠ [] then active else metaTables
    | none => if active ≠ [] then active else metaTables
  base.filter (fun t => metaTables.contains t)

/-- The dict `tname_map` (line 207) sends each snapshot table to its sanitized name;
as a dict comprehension over `meta["tables"]` its lookup at any snapshot
table is exactly `_sanitize_identifier t "T"`, which is how it is modelled. -/
def tnameMap (t : String) : String := _sanitize_identifier t "T"

/-- One relationship line (line 216); `\x7b` is the literal brace of
`||--o{`. -/
def relLine (fk : FkInfo) : String :=
  "  " ++ tnameMap fk.ref_table ++ " ||--o\x7b " ++ tnameMap fk.table ++ " : " ++
    _sanitize_identifier fk.column "C" ++ "__TO__" ++ _sanitize_identifier fk.ref_column "C"

/-- The relationship-emitting loop (lines 211-217). -/
def relLines (fks : List FkInfo) (inc : List String) : List String :=
  fks.foldl
    (fun acc fk =>
      if ¬ inc.contains fk.ref_table ∨ ¬ inc.contains fk.table then acc
      else acc ++ [relLine fk])
    []

/-- The dict `cols_by_table` (lines 219-221): a dict from table name to its columns in
`meta["columns"]` order, built by `setdefault(...).append(...)`. -/
def colsByTable (columns : List ColumnInfo) : String → List ColumnInfo :=
  columns.foldl (fun m c => fun k => if k = c.table then m k ++ [c] else m k) (fun _ => [])

/-- One column line of an entity block (lines 225-228). -/
def colLine (c : ColumnInfo) : String :=
  "    " ++ _normalize_type c.type ++ " " ++ _sanitize_identifier c.name "C" ++
    (if c.key = "PRI" then " PK" else "")

/-- One entity block (lines 223-229); `\x7b`/`\x7d` are the literal braces. -/
def entityBlock (columns : List ColumnInfo) (t : String) : List String :=
  ("  " ++ tnameMap t ++ " \x7b") :: (colsByTable columns t).map colLine ++ ["  \x7d"]

/-- All lines of the diagram body (lines 209-229). -/
def erLines (meta : SchemaMeta) (tables : Option (List String)) (active : List String) :
    List String :=
  let inc := resolveFilter tables active meta.tables
  inc.foldl (fun acc t => acc ++ entityBlock meta.columns t)
    ("erDiagram" :: relLines meta.fks inc)

/-- Embedding of the `generate_er_mermaid` rendering (lines 230-232): newline-joined body inside
a fenced mermaid code block (`\x60` is the backquote). -/
def generate_er_mermaid (meta : SchemaMeta) (tables : Option (List String) := none)
    (active_tables : List String := []) : String :=
  "\x60\x60\x60mermaid\n" ++ String.intercalate "\n" (erLines meta tables active_tables) ++
    "\n\x60\x60\x60"

end MysqlToolkit

/-! ### UI guard wiring

`run_webui_agents.py` (lines 57-160) and `run_webui_clean.py` (lines 48-141)
wrap the toolkit methods with closures over three booleans stored on the
WebSocket handler: `_er_required`, `_er_confirmed`, `_observed_db_read`
(all falsy before first use).  The two launchers differ in exactly one
place: the clean variant's `export_query_tsv` wrapper has no ER-confirmation
check.  Events are the five wrapped entry points; the guarded step returns
the successor state together with what the wrapper did (ran the underlying
operation, or returned a structured refusal dict). -/

namespace GuardWiring

/-- Which launcher's wiring is running. -/
inductive Wiring where
  | agents
  | clean
deriving DecidableEq, Repr

/-- The guarded entry points. -/
inductive GuardEvent where
  | schemaOp    -- `generate_er_mermaid` or `set_active_tables`
  | confirmER   -- an `ask_user` round whose question matches the ER keywords
  | execSqlCall
  | exportCall
  | execPyCall  -- `execute_python_code`
deriving DecidableEq, Repr

/-- The structured refusal dict returned instead of executing. -/
structure Refusal where
  success : Bool
  status : Bool
  message : String
  error : String
  files : List String
deriving DecidableEq, Repr

/-- What a wrapped call did. -/
inductive GuardAction where
  | executed
  | refused (r : Refusal)
deriving DecidableEq, Repr

/-- Guard flags on the WebSocket handler (`getattr` defaults are false). -/
structure GuardState where
  er_required : Bool := false
  er_confirmed : Bool := false
  observed_db_read : Bool := false
deriving DecidableEq, Repr

def initialGuardState : GuardState := {}

/-- The condition every guarded wrapper tests first:
`getattr(self, "_er_required", False) and not getattr(self, "_er_confirmed", False)`. -/
def erPending (s : GuardState) : Bool := s.er_required && !s.er_confirmed

def erRefusal (msg : String) : Refusal :=
  ⟨false, false, msg, "GUARD_ER_CONFIRM_REQUIRED", []⟩

def dbRefusal : Refusal :=
  ⟨false, false,
    "Guard: A real DB read is required before executing Python. Please call mysql_schema.exec_sql or export_query_tsv first.",
    "GUARD_DB_REQUIRED", []⟩

/-- One guarded call.  Transcribed from `_exec_sql_guarded`, `_export_guarded`,
`_er_guarded`, `_sat_guarded`, `_exec_py_guarded` in both launchers. -/
def guardStep (w : Wiring) (s : GuardState) : GuardEvent → GuardState × GuardAction
  | .schemaOp =>
      ({ er_required := true, er_confirmed := false, observed_db_read := false }, .executed)
  | .confirmER =>
      ({ s with er_required := false, er_confirmed := true }, .executed)
  | .execSqlCall =>
      if erPending s then
        (s, .refused (erRefusal
          "Guard: ER change detected. Please confirm the ER diagram before reading data."))
      else ({ s with observed_db_read := true }, .executed)
  | .exportCall =>
      match w with
      | .agents =>
          if erPending s then
            (s, .refused (erRefusal
              "Guard: ER change detected. Please confirm the ER diagram before exporting data."))
          else ({ s with observed_db_read := true }, .executed)
      | .clean => ({ s with observed_db_read := true }, .executed)
  | .execPyCall =>
      if erPending s then
        (s, .refused (erRefusal
          "Guard: ER change detected. Please confirm the ER diagram before executing Python."))
      else if !s.observed_db_read then (s, .refused dbRefusal)
      else (s, .executed)

/-- State after a sequence of guarded calls. -/
def runGuard (w : Wiring) (s : GuardState) (es : List GuardEvent) : GuardState :=
  es.foldl (fun s e => (guardStep w s e).1) s

/-- Predicate for "a schema-affecting operation has occurred without subsequent user
confirmation": some `schemaOp` in the trace has no later `confirmER`. -/
def UnconfirmedSchema (es : List GuardEvent) : Prop :=
  ∃ p q, es = p ++ GuardEvent.schemaOp :: q ∧ GuardEvent.confirmER ∉ q

/-- Predicate for "a real data read has been observed since the last schema-affecting
operation": some `execSqlCall`/`exportCall` in the trace actually executed
(was not refused by the wrapper) and no `schemaOp` follows it. -/
def DbReadSince (w : Wiring) (es : List GuardEvent) : Prop :=
  ∃ p e q, es = p ++ e :: q ∧
    (e = GuardEvent.execSqlCall ∨ e = GuardEvent.exportCall) ∧
    (guardStep w (runGuard w initialGuardState p) e).2 = .executed ∧
    GuardEvent.schemaOp ∉ q

end GuardWiring

namespace MysqlToolkit

/-! ### Claim-side reference definition and concrete test fixtures -/

/-- The sanitizer exactly as claim C8 words it, with no whitespace strip:
replace every character outside `[A-Za-z0-9_]` by `_`, then prepend the
caller-supplied tag (joined with `_`) when the result is empty or does not
start with a letter.  To be compared against `_sanitize_identifier`. -/
def sanitizeClaimC8 (name : String) (pre : String) : String :=
  let s : String := ⟨name.data.map (fun c => if isWordChar c then c else '_')⟩
  if s = "" then pre ++ "_"
  else if ¬ isLetterAZ (s.data.headD ' ') then pre ++ "_" ++ s
  else s

/-- An empty ambient environment. -/
def emptyEnv : EnvMap := fun _ => none

/-- An oracle whose process always exits 0 with fixed output. -/
def okProc (out : String) : ProcOracle := fun _ _ => ⟨0, out⟩

/-- An oracle whose process always exits 1 with fixed output. -/
def failProc (out : String) : ProcOracle := fun _ _ => ⟨1, out⟩

/-- An oracle for introspection tests on database `"d"`: answers the tables
query with `tablesOut` and every other query with empty output. -/
def introProc (tablesOut : String) : ProcOracle :=
  fun args _ => ⟨0, if args.contains (sqlTablesQuery "d") then tablesOut else ""⟩

/-- A fully-populated test connection against database `"d"`. -/
def testConn : MysqlConn := ⟨"h", 3306, "u", "p", some "d"⟩

/-- Snapshot produced by introspecting `"d"` through `introProc "a\nb"`. -/
def wMeta1 : SchemaMeta := ⟨"d", ["a", "b"], [], []⟩

/-- Snapshot produced by introspecting `"d"` through `introProc "b"`
(table `"a"` has disappeared). -/
def wMeta2 : SchemaMeta := ⟨"d", ["b"], [], []⟩

/-- Cache contents after the first test introspection. -/
def wCache1 : SchemaCache := fun k => if k = "d" then some wMeta1 else none

/-- Cache contents after the second test introspection. -/
def wCache2 : SchemaCache := fun k => if k = "d" then some wMeta2 else wCache1 k

end MysqlToolkit


/-! ## Helper lemmas -/

namespace MysqlToolkit

theorem listInfixOf_iff (n l : List Char) : listInfixOf n l = true ↔ n <:+: l := by
  induction l with
  | nil =>
    simp [listInfixOf, List.isEmpty_iff, List.infix_nil]
  | cons h t ih =>
    simp [listInfixOf, Bool.or_eq_true, List.isPrefixOf_iff_prefix, ih, List.infix_cons_iff]

theorem strContains_pyLower_int (s : String) (h : strContains s "int" = true) :
    strContains (pyLower s) "int" = true := by
  rw [strContains, listInfixOf_iff] at h ⊢
  have hmap : ("int".data.map Char.toLower) = "int".data := by decide
  have := List.IsInfix.map Char.toLower h
  rw [hmap] at this
  simpa [pyLower] using this

theorem isWordChar_not_ws {c : Char} (h : isWordChar c = true) : isPyWs c = false := by
  cases hw : isPyWs c with
  | false => rfl
  | true =>
    exfalso
    simp only [isPyWs, Bool.or_eq_true, decide_eq_true_eq] at hw
    rcases hw with ((((h1 | h1) | h1) | h1) | h1) | h1 <;> subst h1 <;>
      exact absurd h (by decide)

theorem dropWhile_isPyWs_of (l : List Char) (h : ∀ c ∈ l, isPyWs c = false) :
    l.dropWhile isPyWs = l := by
  cases l with
  | nil => rfl
  | cons a t => simp [List.dropWhile_cons, h a (List.mem_cons_self a t)]

theorem map_eq_self_of_mem {l : List Char} {f : Char → Char} (h : ∀ c ∈ l, f c = c) :
    l.map f = l := by
  induction l with
  | nil => rfl
  | cons a t ih =>
    simp [List.map_cons, h a (List.mem_cons_self a t),
      ih (fun c hc => h c (List.mem_cons_of_mem a hc))]

end MysqlToolkit

namespace MysqlToolkit

/-- Claim C7: `_normalize_type` lower-cases its input and classifies by substring
membership with first-match-wins priority: "int" wins over everything; then
the float substrings; then the bool substrings; then the datetime substrings;
and the result is "string" exactly when none of the first four rules fired
(the char/text/blob/binary/json rule and the default fallback both yield
"string").  In particular every type string containing "int" normalizes to
"int" regardless of other substrings present. -/
theorem normalize_type_characterization (t : String) :
    (_normalize_type t = "int" ↔ strContains (pyLower t) "int" = true) ∧
    (_normalize_type t = "float" ↔
      (strContains (pyLower t) "int" = false ∧
        ["decimal", "numeric", "float", "double", "real"].any (strContains (pyLower t)) = true)) ∧
    (_normalize_type t = "bool" ↔
      (strContains (pyLower t) "int" = false ∧
        ["decimal", "numeric", "float", "double", "real"].any (strContains (pyLower t)) = false ∧
        ["bool", "tinyint(1)"].any (strContains (pyLower t)) = true)) ∧
    (_normalize_type t = "datetime" ↔
      (strContains (pyLower t) "int" = false ∧
        ["decimal", "numeric", "float", "double", "real"].any (strContains (pyLower t)) = false ∧
        ["bool", "tinyint(1)"].any (strContains (pyLower t)) = false ∧
        ["date", "time", "year", "timestamp"].any (strContains (pyLower t)) = true)) ∧
    (_normalize_type t = "string" ↔
      (strContains (pyLower t) "int" = false ∧
        ["decimal", "numeric", "float", "double", "real"].any (strContains (pyLower t)) = false ∧
        ["bool", "tinyint(1)"].any (strContains (pyLower t)) = false ∧
        ["date", "time", "year", "timestamp"].any (strContains (pyLower t)) = false)) ∧
    (strContains t "int" = true → _normalize_type t = "int") := by
  have hpriority : strContains t "int" = true → _normalize_type t = "int" := by
    intro hc
    unfold _normalize_type
    dsimp only
    rw [if_pos (strContains_pyLower_int t hc)]
  refine ⟨?_, ?_, ?_, ?_, ?_, hpriority⟩ <;>
    (unfold _normalize_type
     dsimp only
     cases h1 : strContains (pyLower t) "int" <;>
       cases h2 : ["decimal", "numeric", "float", "double", "real"].any
         (strContains (pyLower t)) <;>
       cases h3 : ["bool", "tinyint(1)"].any (strContains (pyLower t)) <;>
       cases h4 : ["date", "time", "year", "timestamp"].any (strContains (pyLower t)) <;>
       cases h5 : ["char", "text", "blob", "binary", "json"].any (strContains (pyLower t)) <;>
       simp)

end MysqlToolkit

namespace MysqlToolkit

/-- Witness for C7: `"bigint"` contains `"int"` and normalizes to `"int"`. -/
theorem normalize_type_characterization_witness :
    strContains "bigint" "int" = true ∧ _normalize_type "bigint" = "int" :=
  ⟨by decide, (normalize_type_characterization "bigint").2.2.2.2.2 (by decide)⟩

/-- Claim C8, counterexample: `_sanitize_identifier` first strips surrounding
whitespace (`(name or "").strip()`, line 72), which claim C8 does not mention.
On `" a"` the code yields `"a"`, while the function described by the claim
(replace non-word characters, then prepend the tag when not letter-initial)
yields `"T__a"`: the space would become `"_"` and force the prefix. -/
theorem sanitize_identifier_counterexample :
    _sanitize_identifier " a" "T" = "a" ∧ sanitizeClaimC8 " a" "T" = "T__a" ∧
      ("a" : String) ≠ "T__a" :=
  ⟨rfl, rfl, by decide⟩

/-- Claim C8, amended: after first stripping surrounding whitespace,
`_sanitize_identifier` behaves exactly as the claim describes (replace every
character outside `[A-Za-z0-9_]` with `_`, prepend the caller-supplied tag
when the result is empty or does not start with a letter); consequently it is
the identity on every already-clean identifier (a letter followed by word
characters, hence nothing strippable), and on `""` it yields `pre ++ "_"`. -/
theorem sanitize_identifier_spec (name pre : String) :
    _sanitize_identifier name pre = sanitizeClaimC8 (pyStrip name) pre ∧
    ((name.data ≠ [] ∧ isLetterAZ (name.data.headD ' ') = true ∧
        (∀ c ∈ name.data, isWordChar c = true)) →
      _sanitize_identifier name pre = name) ∧
    _sanitize_identifier "" pre = pre ++ "_" := by
  refine ⟨rfl, fun ⟨hne, hhead, hall⟩ => ?_, rfl⟩
  have hws : ∀ c ∈ name.data, isPyWs c = false := fun c hc => isWordChar_not_ws (hall c hc)
  have hstrip : pyStrip name = name := by
    unfold pyStrip
    rw [dropWhile_isPyWs_of _ hws,
      dropWhile_isPyWs_of _ (fun c hc => hws c (List.mem_reverse.mp hc)),
      List.reverse_reverse]
  have hmap : name.data.map (fun c => if isWordChar c then c else '_') = name.data :=
    map_eq_self_of_mem (fun c hc => by rw [if_pos (hall c hc)])
  unfold _sanitize_identifier
  dsimp only
  rw [hstrip, hmap]
  have hmk : (⟨name.data⟩ : String) = name := rfl
  rw [hmk]
  have hhead' : isLetterAZ (name.data.head?.getD ' ') = true := by
    simpa [List.headD_eq_head?] using hhead
  rw [if_neg (fun h => hne (congrArg String.data h)), if_neg (by simp [hhead'])]

/-- Witness for C8 (amended): the clean identifier `"ab_1"` is fixed by the
sanitizer, and the empty string yields the tag plus underscore. -/
theorem sanitize_identifier_spec_witness :
    (("ab_1" : String).data ≠ [] ∧ isLetterAZ (("ab_1" : String).data.headD ' ') = true ∧
        (∀ c ∈ ("ab_1" : String).data, isWordChar c = true)) ∧
      _sanitize_identifier "ab_1" "T" = "ab_1" ∧ _sanitize_identifier "" "T" = "T" ++ "_" :=
  ⟨by decide, (sanitize_identifier_spec "ab_1" "T").2.1 (by decide),
    (sanitize_identifier_spec "x" "T").2.2⟩

end MysqlToolkit

namespace MysqlToolkit

/-- Unfolding helper: with the database resolved, `exec_sql` is statement
validation followed by the CLI call and row parsing. -/
theorem exec_sql_eq (conn : MysqlConn) (sql : String) (database : Option String)
    (limit : Int) (base : EnvMap) (proc : ProcOracle) (db : String)
    (hdb : resolveDb "database is not set" database conn.database = .ok db) :
    exec_sql conn sql database limit base proc =
      (execSqlStmt sql limit).bind
        (fun stmt => (runMysql conn stmt (some db) true base proc).map parseExecOutput) := by
  unfold exec_sql
  rw [hdb]
  cases execSqlStmt sql limit with
  | error e => rfl
  | ok stmt =>
    cases runMysql conn stmt (some db) true base proc with
    | error e => rfl
    | ok raw => rfl

end MysqlToolkit

namespace MysqlToolkit

/-- Claim C2: with a resolvable database, `exec_sql` raises
`ValueError "Only SELECT is allowed in exec_sql"` whenever the trimmed,
semicolon-stripped, uppercased statement does not start with `SELECT`;
raises `ValueError "FOR UPDATE is not allowed"` whenever that uppercased
statement contains `" FOR UPDATE"`; and when `" LIMIT "` is absent it runs
the statement wrapped as `SELECT * FROM ( stmt ) AS _sub LIMIT <limit>`
(default 2000 at the call sites).  In particular it rejects
`"UPDATE t SET x=1"` and `"SELECT * FROM t FOR UPDATE"` and accepts
`"SELECT * FROM t"` with the LIMIT wrapper applied. -/
theorem exec_sql_select_only (conn : MysqlConn) (sql : String) (database : Option String)
    (limit : Int) (base : EnvMap) (proc : ProcOracle) (db : String)
    (hdb : resolveDb "database is not set" database conn.database = .ok db) :
    (pyStartswith (pyUpper (pyRstripChar (pyStrip sql) ';')) "SELECT" = false →
      exec_sql conn sql database limit base proc =
        .error (.valueError "Only SELECT is allowed in exec_sql")) ∧
    (pyStartswith (pyUpper (pyRstripChar (pyStrip sql) ';')) "SELECT" = true →
      strContains (pyUpper (pyRstripChar (pyStrip sql) ';')) " FOR UPDATE" = true →
      exec_sql conn sql database limit base proc =
        .error (.valueError "FOR UPDATE is not allowed")) ∧
    (pyStartswith (pyUpper (pyRstripChar (pyStrip sql) ';')) "SELECT" = true →
      strContains (pyUpper (pyRstripChar (pyStrip sql) ';')) " FOR UPDATE" = false →
      strContains (pyUpper (pyRstripChar (pyStrip sql) ';')) " LIMIT " = false →
      exec_sql conn sql database limit base proc =
        (runMysql conn ("SELECT * FROM ( " ++ pyRstripChar (pyStrip sql) ';' ++
            " ) AS _sub LIMIT " ++ toString limit) (some db) true base proc).map
          parseExecOutput) ∧
    exec_sql conn "UPDATE t SET x=1" database 2000 base proc =
      .error (.valueError "Only SELECT is allowed in exec_sql") ∧
    exec_sql conn "SELECT * FROM t FOR UPDATE" database 2000 base proc =
      .error (.valueError "FOR UPDATE is not allowed") ∧
    exec_sql conn "SELECT * FROM t" database 2000 base proc =
      (runMysql conn "SELECT * FROM ( SELECT * FROM t ) AS _sub LIMIT 2000" (some db) true
        base proc).map parseExecOutput := by
  refine ⟨fun h1 => ?_, fun h1 h2 => ?_, fun h1 h2 h3 => ?_, ?_, ?_, ?_⟩
  · rw [exec_sql_eq conn sql database limit base proc db hdb]
    have : execSqlStmt sql limit = .error (.valueError "Only SELECT is allowed in exec_sql") := by
      unfold execSqlStmt
      dsimp only
      rw [if_pos (by simp [h1])]
    rw [this]
    rfl
  · rw [exec_sql_eq conn sql database limit base proc db hdb]
    have : execSqlStmt sql limit = .error (.valueError "FOR UPDATE is not allowed") := by
      unfold execSqlStmt
      dsimp only
      rw [if_neg (by simp [h1]), if_pos h2]
    rw [this]
    rfl
  · rw [exec_sql_eq conn sql database limit base proc db hdb]
    have : execSqlStmt sql limit =
        .ok ("SELECT * FROM ( " ++ pyRstripChar (pyStrip sql) ';' ++
          " ) AS _sub LIMIT " ++ toString limit) := by
      unfold execSqlStmt
      dsimp only
      rw [if_neg (by simp [h1]), if_neg (by simp [h2]), if_pos (by simp [h3])]
    rw [this]
    rfl
  · rw [exec_sql_eq conn _ database 2000 base proc db hdb]
    rfl
  · rw [exec_sql_eq conn _ database 2000 base proc db hdb]
    rfl
  · rw [exec_sql_eq conn _ database 2000 base proc db hdb]
    rfl

/-- Witness for C2 at a concrete connection, database and oracle. -/
theorem exec_sql_select_only_witness :
    resolveDb "database is not set" none testConn.database = .ok "d" ∧
    exec_sql testConn "UPDATE t SET x=1" none 2000 emptyEnv (okProc "x") =
      .error (.valueError "Only SELECT is allowed in exec_sql") ∧
    exec_sql testConn "SELECT * FROM t FOR UPDATE" none 2000 emptyEnv (okProc "x") =
      .error (.valueError "FOR UPDATE is not allowed") ∧
    exec_sql testConn "SELECT * FROM t" none 2000 emptyEnv (okProc "x") =
      (runMysql testConn "SELECT * FROM ( SELECT * FROM t ) AS _sub LIMIT 2000" (some "d") true
        emptyEnv (okProc "x")).map parseExecOutput :=
  ⟨rfl,
    (exec_sql_select_only testConn "UPDATE t SET x=1" none 2000 emptyEnv (okProc "x") "d"
      rfl).2.2.2.1,
    (exec_sql_select_only testConn "SELECT * FROM t FOR UPDATE" none 2000 emptyEnv (okProc "x")
      "d" rfl).2.2.2.2.1,
    (exec_sql_select_only testConn "SELECT * FROM t" none 2000 emptyEnv (okProc "x") "d"
      rfl).2.2.2.2.2⟩

end MysqlToolkit

namespace MysqlToolkit

/-- Claim C6: the password never reaches the argument vector — two connections
differing only in password produce identical `mysql` argument lists — and is
delivered solely through the `MYSQL_PWD` environment variable; `_run_mysql`
raises a validation error (without consulting the subprocess at all) when
host, user or password is empty, and wraps a non-zero exit status into a
runtime error carrying the captured output text. -/
theorem run_mysql_credentials (c1 c2 : MysqlConn) (sql : String) (database : Option String)
    (hdr : Bool) (base : EnvMap) (proc : ProcOracle) :
    (c1.host = c2.host → c1.port = c2.port → c1.user = c2.user → c1.database = c2.database →
      runMysqlArgs c1 sql database hdr = runMysqlArgs c2 sql database hdr) ∧
    runMysqlEnv base c1 "MYSQL_PWD" = some c1.password ∧
    (∀ k, k ≠ "MYSQL_PWD" → runMysqlEnv base c1 k = base k) ∧
    ((c1.host = "" ∨ c1.user = "" ∨ c1.password = "") →
      runMysql c1 sql database hdr base proc =
        .error (.valueError
          "MySQL connection is not fully configured (host/user/password required)") ∧
      ∀ proc' : ProcOracle,
        runMysql c1 sql database hdr base proc = runMysql c1 sql database hdr base proc') ∧
    (¬ (c1.host = "" ∨ c1.user = "" ∨ c1.password = "") →
      (proc (runMysqlArgs c1 sql database hdr) (runMysqlEnv base c1)).exitCode ≠ 0 →
      runMysql c1 sql database hdr base proc =
        .error (.runtimeError ("mysql CLI failed: " ++
          (proc (runMysqlArgs c1 sql database hdr) (runMysqlEnv base c1)).output))) := by
  refine ⟨fun h1 h2 h3 h4 => ?_, ?_, fun k hk => ?_, fun hv => ⟨?_, fun proc' => ?_⟩,
    fun hv hexit => ?_⟩
  · unfold runMysqlArgs
    rw [h1, h2, h3, h4]
  · simp [runMysqlEnv]
  · simp [runMysqlEnv, hk]
  · unfold runMysql
    rw [if_pos hv]
  · unfold runMysql
    rw [if_pos hv, if_pos hv]
  · unfold runMysql
    rw [if_neg hv]
    dsimp only
    rw [if_neg hexit]

/-- Witness for C6: two connections differing only in password give the same
argument vector; an empty host is rejected; a non-zero exit yields the
wrapped runtime error. -/
theorem run_mysql_credentials_witness :
    runMysqlArgs ⟨"h", 3306, "u", "p1", some "d"⟩ "SELECT 1;" none false =
      runMysqlArgs ⟨"h", 3306, "u", "p2", some "d"⟩ "SELECT 1;" none false ∧
    runMysqlEnv emptyEnv ⟨"h", 3306, "u", "p1", some "d"⟩ "MYSQL_PWD" = some "p1" ∧
    runMysql ⟨"", 3306, "u", "p", none⟩ "SELECT 1;" none false emptyEnv (okProc "x") =
      .error (.valueError
        "MySQL connection is not fully configured (host/user/password required)") ∧
    runMysql testConn "SELECT 1;" none false emptyEnv (failProc "boom") =
      .error (.runtimeError ("mysql CLI failed: " ++ "boom")) :=
  ⟨(run_mysql_credentials ⟨"h", 3306, "u", "p1", some "d"⟩ ⟨"h", 3306, "u", "p2", some "d"⟩
      "SELECT 1;" none false emptyEnv (okProc "x")).1 rfl rfl rfl rfl,
    (run_mysql_credentials ⟨"h", 3306, "u", "p1", some "d"⟩ ⟨"h", 3306, "u", "p2", some "d"⟩
      "SELECT 1;" none false emptyEnv (okProc "x")).2.1,
    ((run_mysql_credentials ⟨"", 3306, "u", "p", none⟩ ⟨"", 3306, "u", "p", none⟩
      "SELECT 1;" none false emptyEnv (okProc "x")).2.2.2.1 (Or.inl rfl)).1,
    (run_mysql_credentials testConn testConn "SELECT 1;" none false emptyEnv
      (failProc "boom")).2.2.2.2 (by decide) (by decide)⟩

end MysqlToolkit

namespace MysqlToolkit

/-- Claim C10: `set_connection` stores the new connection before running the
`SELECT 1;` smoke test, so whatever the smoke test does the stored connection
is the new one; when the smoke test fails, the error propagates to the caller
while the previous connection is not restored. -/
theorem set_connection_not_atomic (st : ToolkitState) (host : String) (port : Int)
    (user password : String) (database : Option String) (base : EnvMap) (proc : ProcOracle) :
    (set_connection st host port user password database base proc).2.conn =
      ⟨host, port, user, password, database⟩ ∧
    (∀ e, runMysql ⟨host, port, user, password, database⟩ "SELECT 1;" none false base proc =
        .error e →
      (set_connection st host port user password database base proc).1 = .error e) := by
  constructor
  · unfold set_connection
    dsimp only
    cases runMysql ⟨host, port, user, password, database⟩ "SELECT 1;" none false base proc with
    | ok v => rfl
    | error e => rfl
  · intro e he
    unfold set_connection
    dsimp only
    rw [he]

/-- Witness for C10: a connection whose smoke test fails (empty password is
rejected by `_run_mysql`) still ends up stored. -/
theorem set_connection_not_atomic_witness :
    runMysql ⟨"h", 3306, "u", "", some "d"⟩ "SELECT 1;" none false emptyEnv (okProc "x") =
      .error (.valueError
        "MySQL connection is not fully configured (host/user/password required)") ∧
    (set_connection ⟨testConn, fun _ => none, []⟩ "h" 3306 "u" "" (some "d") emptyEnv
        (okProc "x")).1 =
      .error (.valueError
        "MySQL connection is not fully configured (host/user/password required)") ∧
    (set_connection ⟨testConn, fun _ => none, []⟩ "h" 3306 "u" "" (some "d") emptyEnv
        (okProc "x")).2.conn = ⟨"h", 3306, "u", "", some "d"⟩ :=
  ⟨rfl,
    (set_connection_not_atomic ⟨testConn, fun _ => none, []⟩ "h" 3306 "u" "" (some "d")
      emptyEnv (okProc "x")).2 _ rfl,
    (set_connection_not_atomic ⟨testConn, fun _ => none, []⟩ "h" 3306 "u" "" (some "d")
      emptyEnv (okProc "x")).1⟩

end MysqlToolkit

namespace MysqlToolkit

theorem except_bind_error {ε β γ : Type} (e : ε) (f : β → Except ε γ) :
    (Except.error e >>= f) = Except.error e := rfl

theorem except_bind_ok {ε β γ : Type} (b : β) (f : β → Except ε γ) :
    (Except.ok b >>= f) = f b := rfl

/-- A successful `introspect_schema` writes its snapshot into the cache under
the snapshot's database name, leaving every other key untouched. -/
theorem introspect_schema_cache_eq (conn : MysqlConn) (cache : SchemaCache)
    (database : Option String) (base : EnvMap) (proc : ProcOracle)
    (c : SchemaCache) (m : SchemaMeta)
    (h : introspect_schema conn cache database base proc = .ok (c, m)) :
    c = fun k => if k = m.database then some m else cache k := by
  unfold introspect_schema at h
  cases hres : resolveDb "database is not set; call set_connection or pass database"
      database conn.database with
  | error e => rw [hres, except_bind_error] at h; exact absurd h (by simp)
  | ok db =>
    rw [hres, except_bind_ok] at h
    cases ht : runMysql conn (sqlTablesQuery db) none false base proc with
    | error e => rw [ht, except_bind_error] at h; exact absurd h (by simp)
    | ok t_raw =>
      rw [ht, except_bind_ok] at h
      cases hc : runMysql conn (sqlColumnsQuery db) none false base proc with
      | error e => rw [hc, except_bind_error] at h; exact absurd h (by simp)
      | ok c_raw =>
        rw [hc, except_bind_ok] at h
        cases hf : runMysql conn (sqlFksQuery db) none false base proc with
        | error e => rw [hf, except_bind_error] at h; exact absurd h (by simp)
        | ok f_raw =>
          rw [hf, except_bind_ok] at h
          have h' := h
          simp only [pure, Except.pure, Except.ok.injEq, Prod.mk.injEq] at h'
          obtain ⟨hcache, hmeta⟩ := h'
          subst hmeta
          exact hcache.symm

/-- Claim C9: two successive introspections of the same database leave the cache
holding exactly the second snapshot (wholesale overwrite, no merge): the
cached entry equals the second result, other keys are untouched, and a table
present in the first snapshot but absent from the second is absent from the
cached snapshot afterward. -/
theorem introspect_overwrites (conn : MysqlConn) (cache : SchemaCache)
    (database : Option String) (base : EnvMap) (proc1 proc2 : ProcOracle)
    (c1 c2 : SchemaCache) (m1 m2 : SchemaMeta)
    (h1 : introspect_schema conn cache database base proc1 = .ok (c1, m1))
    (h2 : introspect_schema conn c1 database base proc2 = .ok (c2, m2)) :
    c2 m2.database = some m2 ∧
    (∀ k, k ≠ m2.database → c2 k = c1 k) ∧
    (∀ t, t ∈ m1.tables → t ∉ m2.tables →
      ∀ mt, c2 m2.database = some mt → t ∉ mt.tables) := by
  have he := introspect_schema_cache_eq conn c1 database base proc2 c2 m2 h2
  refine ⟨?_, fun k hk => ?_, fun t ht1 ht2 mt hmt => ?_⟩
  · rw [he]
    simp
  · rw [he]
    simp [hk]
  · rw [he] at hmt
    simp at hmt
    rw [← hmt]
    exact ht2

end MysqlToolkit

namespace MysqlToolkit

/-- Witness for C9: introspecting `"d"` twice, the second snapshot lacking
table `"a"`, leaves the cache holding exactly the second snapshot. -/
theorem introspect_overwrites_witness :
    introspect_schema testConn (fun _ => none) none emptyEnv (introProc "a\nb") =
      .ok (wCache1, wMeta1) ∧
    introspect_schema testConn wCache1 none emptyEnv (introProc "b") =
      .ok (wCache2, wMeta2) ∧
    wCache2 wMeta2.database = some wMeta2 ∧
    ("a" ∈ wMeta1.tables ∧ "a" ∉ wMeta2.tables ∧
      ∀ mt, wCache2 wMeta2.database = some mt → "a" ∉ mt.tables) :=
  ⟨rfl, rfl,
    (introspect_overwrites testConn (fun _ => none) none emptyEnv (introProc "a\nb")
      (introProc "b") wCache1 wCache2 wMeta1 wMeta2 rfl rfl).1,
    by decide,
    by decide,
    (introspect_overwrites testConn (fun _ => none) none emptyEnv (introProc "a\nb")
      (introProc "b") wCache1 wCache2 wMeta1 wMeta2 rfl rfl).2.2 "a" (by decide) (by decide)⟩

end MysqlToolkit

namespace MysqlToolkit

/-- Unfolding helper: with the database resolved, `export_query_tsv` is the
CLI call on the prepared statement followed by the file write. -/
theorem export_query_tsv_eq (conn : MysqlConn) (sql out_path : String)
    (database : Option String) (limit : Option Int) (base : EnvMap) (proc : ProcOracle)
    (db : String) (hdb : resolveDb "database is not set" database conn.database = .ok db) :
    export_query_tsv conn sql out_path database limit base proc =
      (runMysql conn (exportStmt sql limit) (some db) true base proc).map
        (fun raw => (⟨pyOrStr (pyDirname out_path) ".", out_path, raw⟩, out_path)) := by
  unfold export_query_tsv
  rw [hdb, except_bind_ok]
  cases runMysql conn (exportStmt sql limit) (some db) true base proc with
  | error e => rfl
  | ok raw => rfl

/-- Claim C1, counterexample: unlike `exec_sql`, `export_query_tsv` performs no
SELECT-only validation.  The non-SELECT statement `"UPDATE t SET x=1"` is not
rejected with a validation error: the subprocess is invoked and its output is
written to the file, refuting the claim that the export path enforces the
same SELECT-only restriction as `exec_sql` (which rejects exactly this
statement, as the second conjunct shows). -/
theorem export_no_select_check_counterexample :
    export_query_tsv testConn "UPDATE t SET x=1" "/tmp/out.tsv" none none emptyEnv
        (okProc "a\tb\n1\t2\n") =
      .ok (⟨"/tmp", "/tmp/out.tsv", "a\tb\n1\t2\n"⟩, "/tmp/out.tsv") ∧
    exec_sql testConn "UPDATE t SET x=1" none 2000 emptyEnv (okProc "a\tb\n1\t2\n") =
      .error (.valueError "Only SELECT is allowed in exec_sql") :=
  ⟨rfl, rfl⟩

/-- Claim C1, amended: `export_query_tsv` applies no SELECT-only restriction —
any statement (after trimming and dropping one trailing semicolon) is passed
to the CLI.  The rest of the claim holds: a positive numeric cap wraps the
statement as `SELECT * FROM ( stmt ) AS _sub LIMIT <cap>`; a missing or
non-positive cap leaves the statement unwrapped; the raw tab-separated output
including the header line (the `-N` flag is absent from the argument vector)
is written to the caller-specified path, with `os.makedirs` applied to its
parent directory (or `"."`); and the path written is returned. -/
theorem export_query_tsv_behavior (conn : MysqlConn) (sql out_path : String)
    (database : Option String) (limit : Option Int) (base : EnvMap) (proc : ProcOracle)
    (db : String) (hdb : resolveDb "database is not set" database conn.database = .ok db) :
    (export_query_tsv conn sql out_path database limit base proc =
      (runMysql conn (exportStmt sql limit) (some db) true base proc).map
        (fun raw => (⟨pyOrStr (pyDirname out_path) ".", out_path, raw⟩, out_path))) ∧
    (∀ n : Int, limit = some n → 0 < n →
      exportStmt sql limit =
        "SELECT * FROM ( " ++ exportBase sql ++ " ) AS _sub LIMIT " ++ toString n) ∧
    (limit = none → exportStmt sql limit = exportBase sql) ∧
    (∀ n : Int, limit = some n → ¬ 0 < n → exportStmt sql limit = exportBase sql) ∧
    runMysqlArgs conn (exportStmt sql limit) (some db) true =
      ["mysql", "-h", conn.host, "-P", toString conn.port, "-u", conn.user,
        "-B", "-e", exportStmt sql limit, "-D", db] := by
  refine ⟨export_query_tsv_eq conn sql out_path database limit base proc db hdb,
    fun n hn hpos => ?_, fun hn => ?_, fun n hn hpos => ?_, ?_⟩
  · subst hn
    unfold exportStmt
    dsimp only
    rw [if_pos hpos]
  · subst hn
    rfl
  · subst hn
    unfold exportStmt
    dsimp only
    rw [if_neg hpos]
  · have hdbne : db ≠ "" := by
      unfold resolveDb at hdb
      cases hopt : pyOrOpt database conn.database with
      | none => rw [hopt] at hdb; dsimp only at hdb; exact absurd hdb (by simp)
      | some d =>
        rw [hopt] at hdb
        dsimp only at hdb
        by_cases hd : d = ""
        · rw [if_pos hd] at hdb; exact absurd hdb (by simp)
        · rw [if_neg hd] at hdb
          simp only [Except.ok.injEq] at hdb
          rw [← hdb]; exact hd
    unfold runMysqlArgs
    dsimp only
    rw [show pyOrOpt (some db) conn.database = some db by simp [pyOrOpt, hdbne]]
    simp [optTruthy, hdbne]

/-- Witness for C1 (amended): a concrete export with a positive cap. -/
theorem export_query_tsv_behavior_witness :
    resolveDb "database is not set" none testConn.database = .ok "d" ∧
    ((some 5 : Option Int) = some 5 ∧ (0 : Int) < 5) ∧
    export_query_tsv testConn "SELECT a FROM t" "out/f.tsv" none (some 5) emptyEnv
        (okProc "h\n1\n2\n3\n") =
      (runMysql testConn (exportStmt "SELECT a FROM t" (some 5)) (some "d") true emptyEnv
        (okProc "h\n1\n2\n3\n")).map
        (fun raw => (⟨pyOrStr (pyDirname "out/f.tsv") ".", "out/f.tsv", raw⟩, "out/f.tsv")) ∧
    exportStmt "SELECT a FROM t" (some 5) =
      "SELECT * FROM ( " ++ exportBase "SELECT a FROM t" ++ " ) AS _sub LIMIT " ++
        toString (5 : Int) :=
  ⟨rfl, ⟨rfl, by decide⟩,
    (export_query_tsv_behavior testConn "SELECT a FROM t" "out/f.tsv" none (some 5) emptyEnv
      (okProc "h\n1\n2\n3\n") "d" rfl).1,
    (export_query_tsv_behavior testConn "SELECT a FROM t" "out/f.tsv" none (some 5) emptyEnv
      (okProc "h\n1\n2\n3\n") "d" rfl).2.1 5 rfl (by decide)⟩

end MysqlToolkit

namespace MysqlToolkit

theorem relLines_foldl (fks : List FkInfo) (inc : List String) (acc : List String) :
    fks.foldl
      (fun acc fk =>
        if ¬ inc.contains fk.ref_table ∨ ¬ inc.contains fk.table then acc
        else acc ++ [relLine fk]) acc =
      acc ++ (fks.filter
        (fun fk => inc.contains fk.ref_table && inc.contains fk.table)).map relLine := by
  induction fks generalizing acc with
  | nil => simp
  | cons fk rest ih =>
    simp only [List.foldl_cons, List.filter_cons]
    cases ha : inc.contains fk.ref_table with
    | false =>
      rw [if_pos (show ¬ false = true ∨ ¬ inc.contains fk.table = true from Or.inl (by decide)),
        if_neg (show ¬ (false && inc.contains fk.table) = true by simp)]
      exact ih acc
    | true =>
      cases hb : inc.contains fk.table with
      | false =>
        rw [if_pos (show ¬ true = true ∨ ¬ false = true from Or.inr (by decide)),
          if_neg (show ¬ (true && false) = true by decide)]
        exact ih acc
      | true =>
        rw [if_neg (show ¬ (¬ true = true ∨ ¬ true = true) by decide),
          if_pos (show (true && true) = true by decide), ih]
        simp [List.append_assoc]

/-- The relationship loop emits exactly one line per foreign key with both
endpoints in the filtered set, in foreign-key order. -/
theorem relLines_eq (fks : List FkInfo) (inc : List String) :
    relLines fks inc =
      (fks.filter
        (fun fk => inc.contains fk.ref_table && inc.contains fk.table)).map relLine := by
  unfold relLines
  rw [relLines_foldl]
  rfl

theorem colsByTable_foldl (columns : List ColumnInfo) (m : String → List ColumnInfo)
    (t : String) :
    (columns.foldl (fun m c => fun k => if k = c.table then m k ++ [c] else m k) m) t =
      m t ++ columns.filter (fun c => c.table == t) := by
  induction columns generalizing m with
  | nil => simp
  | cons c rest ih =>
    rw [List.foldl_cons, ih, List.filter_cons]
    by_cases h : t = c.table
    · have hbt : (c.table == t) = true := by rw [beq_iff_eq]; exact h.symm
      simp [h, hbt, List.append_assoc]
    · have hbt : (c.table == t) = false := by
        rw [beq_eq_false_iff_ne]
        exact fun hh => h hh.symm
      simp [h, hbt]

/-- The dict `cols_by_table` groups `meta["columns"]` by table, preserving catalog
order: the lookup at `t` is exactly the catalog-ordered columns of `t`. -/
theorem colsByTable_eq (columns : List ColumnInfo) (t : String) :
    colsByTable columns t = columns.filter (fun c => c.table == t) := by
  unfold colsByTable
  rw [colsByTable_foldl]
  rfl

theorem foldl_append_join {α β : Type} (l : List α) (g : α → List β) (acc : List β) :
    l.foldl (fun acc t => acc ++ g t) acc = acc ++ (l.map g).flatten := by
  induction l generalizing acc with
  | nil => simp
  | cons a rest ih => simp [List.foldl_cons, ih, List.append_assoc]

/-- Structure of the diagram body: header line, relationship lines, then the
entity blocks of the resolved filter in filter order. -/
theorem erLines_eq (meta : SchemaMeta) (tables : Option (List String))
    (active : List String) :
    erLines meta tables active =
      "erDiagram" :: relLines meta.fks (resolveFilter tables active meta.tables) ++
        ((resolveFilter tables active meta.tables).map (entityBlock meta.columns)).flatten := by
  unfold erLines
  rw [foldl_append_join]

end MysqlToolkit

namespace MysqlToolkit

/-- Claim C3, counterexample: entity blocks are emitted in the order of the
resolved table filter, not in snapshot order.  With snapshot tables
`["A", "B"]` and explicit filter `["B", "A"]`, `B`'s block precedes `A`'s in
the output although the snapshot lists `A` first. -/
theorem er_entity_order_counterexample :
    erLines ⟨"d", ["A", "B"], [], []⟩ (some ["B", "A"]) [] =
      ["erDiagram", "  B \x7b", "  \x7d", "  A \x7b", "  \x7d"] ∧
    List.indexOf "  B \x7b" (erLines ⟨"d", ["A", "B"], [], []⟩ (some ["B", "A"]) []) <
      List.indexOf "  A \x7b" (erLines ⟨"d", ["A", "B"], [], []⟩ (some ["B", "A"]) []) ∧
    List.indexOf "A" (SchemaMeta.tables ⟨"d", ["A", "B"], [], []⟩) <
      List.indexOf "B" (SchemaMeta.tables ⟨"d", ["A", "B"], [], []⟩) :=
  ⟨rfl, by decide, by decide⟩

/-- Claim C3, amended: `generate_er_mermaid` emits the entity blocks of the
filtered tables in the order of the resolved filter (the explicit `tables`
argument if truthy, else the stored active selection if non-empty, else the
snapshot's tables — hence snapshot order only in that default case),
restricted to tables present in the snapshot; each block lists that table's
columns in catalog order, each column annotated with its normalized semantic
type and sanitized name, with the `" PK"` marker exactly when the column's
catalog key flag equals `"PRI"`. -/
theorem er_entity_blocks (meta : SchemaMeta) (tables : Option (List String))
    (active : List String) :
    erLines meta tables active =
      "erDiagram" :: relLines meta.fks (resolveFilter tables active meta.tables) ++
        ((resolveFilter tables active meta.tables).map (fun t =>
          ("  " ++ _sanitize_identifier t "T" ++ " \x7b") ::
            (meta.columns.filter (fun c => c.table == t)).map (fun c =>
              "    " ++ _normalize_type c.type ++ " " ++ _sanitize_identifier c.name "C" ++
                (if c.key = "PRI" then " PK" else "")) ++ ["  \x7d"])).flatten := by
  have hblock : entityBlock meta.columns = fun t =>
      ("  " ++ _sanitize_identifier t "T" ++ " \x7b") ::
        (meta.columns.filter (fun c => c.table == t)).map (fun c =>
          "    " ++ _normalize_type c.type ++ " " ++ _sanitize_identifier c.name "C" ++
            (if c.key = "PRI" then " PK" else "")) ++ ["  \x7d"] := by
    funext t
    unfold entityBlock colLine tnameMap
    rw [colsByTable_eq]
  rw [erLines_eq, hblock]

/-- Claim C4: the relationship loop emits exactly one line per foreign key whose
referenced (parent) table and child table are both in the filtered set — in
foreign-key order, with sanitized entity identifiers, the fixed cardinality
marker `||--o{` and the composite label
`sanitized(child_column)__TO__sanitized(ref_column)` — and a foreign key with
either endpoint outside the filtered set contributes no line. -/
theorem er_relationship_lines (meta : SchemaMeta) (tables : Option (List String))
    (active : List String) :
    relLines meta.fks (resolveFilter tables active meta.tables) =
      (meta.fks.filter (fun fk =>
        (resolveFilter tables active meta.tables).contains fk.ref_table &&
          (resolveFilter tables active meta.tables).contains fk.table)).map
        (fun fk =>
          "  " ++ _sanitize_identifier fk.ref_table "T" ++ " ||--o\x7b " ++
            _sanitize_identifier fk.table "T" ++ " : " ++
            _sanitize_identifier fk.column "C" ++ "__TO__" ++
            _sanitize_identifier fk.ref_column "C") ∧
    (relLines meta.fks (resolveFilter tables active meta.tables)).length =
      (meta.fks.filter (fun fk =>
        (resolveFilter tables active meta.tables).contains fk.ref_table &&
          (resolveFilter tables active meta.tables).contains fk.table)).length := by
  have h := relLines_eq meta.fks (resolveFilter tables active meta.tables)
  have hrel : relLine = fun fk : FkInfo =>
      "  " ++ _sanitize_identifier fk.ref_table "T" ++ " ||--o\x7b " ++
        _sanitize_identifier fk.table "T" ++ " : " ++
        _sanitize_identifier fk.column "C" ++ "__TO__" ++
        _sanitize_identifier fk.ref_column "C" := by
    funext fk
    unfold relLine tnameMap
    rfl
  constructor
  · rw [h, hrel]
  · rw [h, List.length_map]

end MysqlToolkit

namespace GuardWiring

theorem runGuard_append (w : Wiring) (s : GuardState) (es : List GuardEvent) (e : GuardEvent) :
    runGuard w s (es ++ [e]) = (guardStep w (runGuard w s es) e).1 := by
  unfold runGuard
  rw [List.foldl_append]
  rfl

/-- Decomposing `l ++ [x] = p ++ e :: q`: either the distinguished element is
the appended one, or the append sits inside `q`. -/
theorem snoc_eq_append_cons {α : Type} {l p q : List α} {x e : α}
    (h : l ++ [x] = p ++ e :: q) :
    (q = [] ∧ p = l ∧ e = x) ∨ (∃ q', q = q' ++ [x] ∧ l = p ++ e :: q') := by
  rcases List.eq_nil_or_concat q with hq | ⟨q', a, hq⟩
  · subst hq
    have h2 := List.append_inj' h (by simp)
    exact Or.inl ⟨rfl, h2.1.symm, by simpa using h2.2.symm⟩
  · subst hq
    simp only [List.concat_eq_append] at h ⊢
    rw [show p ++ e :: (q' ++ [a]) = (p ++ e :: q') ++ [a] by simp] at h
    have h2 := List.append_inj' h (by simp)
    have hax : x = a := by simpa using h2.2
    refine Or.inr ⟨q', by rw [hax], h2.1⟩

theorem unconfirmed_snoc_schema (es : List GuardEvent) :
    UnconfirmedSchema (es ++ [.schemaOp]) :=
  ⟨es, [], rfl, List.not_mem_nil _⟩

theorem not_unconfirmed_snoc_confirm (es : List GuardEvent) :
    ¬ UnconfirmedSchema (es ++ [.confirmER]) := by
  rintro ⟨p, q, heq, hnm⟩
  rcases snoc_eq_append_cons heq with ⟨hq, hp, hx⟩ | ⟨q', hq, hes⟩
  · exact absurd hx (by decide)
  · exact hnm (hq ▸ List.mem_append_right q' (by simp))

theorem unconfirmed_snoc_other (es : List GuardEvent) (e0 : GuardEvent)
    (h1 : e0 ≠ .schemaOp) (h2 : e0 ≠ .confirmER) :
    UnconfirmedSchema (es ++ [e0]) ↔ UnconfirmedSchema es := by
  constructor
  · rintro ⟨p, q, heq, hnm⟩
    rcases snoc_eq_append_cons heq with ⟨hq, hp, hx⟩ | ⟨q', hq, hes⟩
    · exact absurd hx.symm h1
    · exact ⟨p, q', hes, fun hm => hnm (hq ▸ List.mem_append_left _ hm)⟩
  · rintro ⟨p, q, heq, hnm⟩
    refine ⟨p, q ++ [e0], by rw [heq]; simp, fun hm => ?_⟩
    rcases List.mem_append.mp hm with hm' | hm'
    · exact hnm hm'
    · exact h2 (List.mem_singleton.mp hm').symm

theorem dbread_snoc_schema (w : Wiring) (es : List GuardEvent) :
    ¬ DbReadSince w (es ++ [.schemaOp]) := by
  rintro ⟨p, e, q, heq, hre, hex, hnm⟩
  rcases snoc_eq_append_cons heq with ⟨hq, hp, hx⟩ | ⟨q', hq, hes⟩
  · rcases hre with rfl | rfl <;> exact absurd hx (by decide)
  · exact hnm (hq ▸ List.mem_append_right q' (by simp))

theorem dbread_snoc_nonread (w : Wiring) (es : List GuardEvent) (e0 : GuardEvent)
    (hn1 : e0 ≠ .schemaOp) (hn2 : e0 ≠ .execSqlCall) (hn3 : e0 ≠ .exportCall) :
    DbReadSince w (es ++ [e0]) ↔ DbReadSince w es := by
  constructor
  · rintro ⟨p, e, q, heq, hre, hex, hnm⟩
    rcases snoc_eq_append_cons heq with ⟨hq, hp, hx⟩ | ⟨q', hq, hes⟩
    · rcases hre with rfl | rfl
      · exact absurd hx.symm hn2
      · exact absurd hx.symm hn3
    · exact ⟨p, e, q', hes, hre, hex, fun hm => hnm (hq ▸ List.mem_append_left _ hm)⟩
  · rintro ⟨p, e, q, heq, hre, hex, hnm⟩
    refine ⟨p, e, q ++ [e0], by rw [heq]; simp, hre, hex, fun hm => ?_⟩
    rcases List.mem_append.mp hm with hm' | hm'
    · exact hnm hm'
    · exact hn1 (List.mem_singleton.mp hm').symm

theorem dbread_snoc_read (w : Wiring) (es : List GuardEvent) (e0 : GuardEvent)
    (hre : e0 = .execSqlCall ∨ e0 = .exportCall) :
    DbReadSince w (es ++ [e0]) ↔
      ((guardStep w (runGuard w initialGuardState es) e0).2 = .executed ∨
        DbReadSince w es) := by
  constructor
  · rintro ⟨p, e, q, heq, hre', hex, hnm⟩
    rcases snoc_eq_append_cons heq with ⟨hq, hp, hx⟩ | ⟨q', hq, hes⟩
    · subst hx
      rw [hp] at hex
      exact Or.inl hex
    · exact Or.inr ⟨p, e, q', hes, hre', hex,
        fun hm => hnm (hq ▸ List.mem_append_left _ hm)⟩
  · rintro (hex | ⟨p, e, q, heq, hre', hex, hnm⟩)
    · exact ⟨es, e0, [], rfl, hre, hex, List.not_mem_nil _⟩
    · refine ⟨p, e, q ++ [e0], by rw [heq]; simp, hre', hex, fun hm => ?_⟩
      rcases List.mem_append.mp hm with hm' | hm'
      · exact hnm hm'
      · rcases hre with rfl | rfl <;> simp at hm'

end GuardWiring

namespace GuardWiring

theorem guardStep_execSql (w : Wiring) (s : GuardState) :
    guardStep w s .execSqlCall =
      if erPending s then
        (s, .refused (erRefusal
          "Guard: ER change detected. Please confirm the ER diagram before reading data."))
      else ({ s with observed_db_read := true }, .executed) := rfl

theorem guardStep_export_agents (s : GuardState) :
    guardStep .agents s .exportCall =
      if erPending s then
        (s, .refused (erRefusal
          "Guard: ER change detected. Please confirm the ER diagram before exporting data."))
      else ({ s with observed_db_read := true }, .executed) := rfl

theorem guardStep_export_clean (s : GuardState) :
    guardStep .clean s .exportCall = ({ s with observed_db_read := true }, .executed) := rfl

theorem guardStep_execPy_state (w : Wiring) (s : GuardState) :
    (guardStep w s .execPyCall).1 = s := by
  unfold guardStep
  split_ifs <;> rfl

theorem guardStep_read_erPending (w : Wiring) (s : GuardState) (e0 : GuardEvent)
    (hre : e0 = .execSqlCall ∨ e0 = .exportCall) :
    erPending (guardStep w s e0).1 = erPending s := by
  rcases hre with rfl | rfl
  · rw [guardStep_execSql]
    split_ifs <;> rfl
  · cases w
    · rw [guardStep_export_agents]
      split_ifs <;> rfl
    · rw [guardStep_export_clean]
      rfl

/-- The ER guard flag is set exactly when some schema-affecting operation in
the trace has no later confirmation. -/
theorem erPending_iff (w : Wiring) (es : List GuardEvent) :
    erPending (runGuard w initialGuardState es) = true ↔ UnconfirmedSchema es := by
  induction es using List.reverseRecOn with
  | nil =>
    refine iff_of_false (show ¬ erPending initialGuardState = true by decide) ?_
    rintro ⟨p, q, heq, hnm⟩
    cases p <;> simp at heq
  | append_singleton es e0 ih =>
    rw [runGuard_append]
    cases e0 with
    | schemaOp =>
      exact iff_of_true rfl (unconfirmed_snoc_schema es)
    | confirmER =>
      exact iff_of_false (by simp [guardStep, erPending]) (not_unconfirmed_snoc_confirm es)
    | execSqlCall =>
      rw [guardStep_read_erPending w _ _ (Or.inl rfl),
        unconfirmed_snoc_other es _ (by decide) (by decide)]
      exact ih
    | exportCall =>
      rw [guardStep_read_erPending w _ _ (Or.inr rfl),
        unconfirmed_snoc_other es _ (by decide) (by decide)]
      exact ih
    | execPyCall =>
      rw [guardStep_execPy_state,
        unconfirmed_snoc_other es _ (by decide) (by decide)]
      exact ih

/-- The observed-DB-read flag is set exactly when some read call in the trace
actually executed with no schema-affecting operation after it. -/
theorem observed_iff (w : Wiring) (es : List GuardEvent) :
    (runGuard w initialGuardState es).observed_db_read = true ↔ DbReadSince w es := by
  induction es using List.reverseRecOn with
  | nil =>
    refine iff_of_false (show ¬ initialGuardState.observed_db_read = true by decide) ?_
    rintro ⟨p, e, q, heq, hre, hex, hnm⟩
    cases p <;> simp at heq
  | append_singleton es e0 ih =>
    rw [runGuard_append]
    cases e0 with
    | schemaOp =>
      exact iff_of_false (by simp [guardStep]) (dbread_snoc_schema w es)
    | confirmER =>
      rw [dbread_snoc_nonread w es .confirmER (by decide) (by decide) (by decide)]
      exact ih
    | execPyCall =>
      rw [guardStep_execPy_state,
        dbread_snoc_nonread w es .execPyCall (by decide) (by decide) (by decide)]
      exact ih
    | execSqlCall =>
      rw [dbread_snoc_read w es .execSqlCall (Or.inl rfl), guardStep_execSql]
      cases herp : erPending (runGuard w initialGuardState es) with
      | true =>
        rw [if_pos (show (true : Bool) = true from rfl)]
        constructor
        · intro h
          exact Or.inr (ih.mp h)
        · rintro (habs | hdb)
          · exact absurd habs (by simp)
          · exact ih.mpr hdb
      | false =>
        rw [if_neg (show ¬ (false : Bool) = true by decide)]
        simp
    | exportCall =>
      rw [dbread_snoc_read w es .exportCall (Or.inr rfl)]
      cases w with
      | agents =>
        rw [guardStep_export_agents]
        cases herp : erPending (runGuard .agents initialGuardState es) with
        | true =>
          rw [if_pos (show (true : Bool) = true from rfl)]
          constructor
          · intro h
            exact Or.inr (ih.mp h)
          · rintro (habs | hdb)
            · exact absurd habs (by simp)
            · exact ih.mpr hdb
        | false =>
          rw [if_neg (show ¬ (false : Bool) = true by decide)]
          simp
      | clean =>
        rw [guardStep_export_clean]
        simp

end GuardWiring

namespace GuardWiring

/-- Claim C5: in both launchers' guard wiring, the underlying
`execute_python_code` is executed exactly when no schema-affecting operation
(`generate_er_mermaid`/`set_active_tables`) is pending unconfirmed and a real
data read (a completed, non-refused `exec_sql` or `export_query_tsv`) has
been observed since the last schema-affecting operation.  Otherwise the call
returns the structured refusal (`success := false`) with error
`GUARD_ER_CONFIRM_REQUIRED` when a schema change is unconfirmed — that guard
is checked first, so it wins even when no read has been observed — and
`GUARD_DB_REQUIRED` when only the data-read condition fails. -/
theorem guard_exec_py (w : Wiring) (es : List GuardEvent) :
    (UnconfirmedSchema es →
      (guardStep w (runGuard w initialGuardState es) .execPyCall).2 =
        .refused (erRefusal
          "Guard: ER change detected. Please confirm the ER diagram before executing Python.")) ∧
    (¬ UnconfirmedSchema es → ¬ DbReadSince w es →
      (guardStep w (runGuard w initialGuardState es) .execPyCall).2 = .refused dbRefusal) ∧
    ((guardStep w (runGuard w initialGuardState es) .execPyCall).2 = .executed ↔
      (¬ UnconfirmedSchema es ∧ DbReadSince w es)) := by
  have hstep : ∀ s : GuardState, guardStep w s .execPyCall =
      if erPending s then
        (s, .refused (erRefusal
          "Guard: ER change detected. Please confirm the ER diagram before executing Python."))
      else if !s.observed_db_read then (s, .refused dbRefusal)
      else (s, .executed) := fun s => rfl
  rw [hstep]
  refine ⟨fun hu => ?_, fun hnu hnd => ?_, ?_⟩
  · rw [if_pos ((erPending_iff w es).mpr hu)]
  · have herp : erPending (runGuard w initialGuardState es) = false := by
      cases h : erPending (runGuard w initialGuardState es)
      · rfl
      · exact absurd ((erPending_iff w es).mp h) hnu
    have hobs : (runGuard w initialGuardState es).observed_db_read = false := by
      cases h : (runGuard w initialGuardState es).observed_db_read
      · rfl
      · exact absurd ((observed_iff w es).mp h) hnd
    rw [if_neg (by simp [herp]), if_pos (by simp [hobs])]
  · cases herp : erPending (runGuard w initialGuardState es) with
    | true =>
      rw [if_pos (show (true : Bool) = true from rfl)]
      refine iff_of_false (by simp) ?_
      rintro ⟨hnu, _⟩
      exact hnu ((erPending_iff w es).mp herp)
    | false =>
      rw [if_neg (show ¬ (false : Bool) = true by decide)]
      cases hobs : (runGuard w initialGuardState es).observed_db_read with
      | false =>
        rw [if_pos (show (!false) = true by decide)]
        refine iff_of_false (by simp) ?_
        rintro ⟨_, hdb⟩
        exact absurd ((observed_iff w es).mpr hdb) (by rw [hobs]; simp)
      | true =>
        rw [if_neg (show ¬ (!true) = true by decide)]
        refine iff_of_true rfl ⟨?_, (observed_iff w es).mp hobs⟩
        intro hu
        exact absurd ((erPending_iff w es).mpr hu) (by rw [herp]; simp)

/-- Witness for C5: after an unconfirmed `set_active_tables`/ER regeneration,
Python execution is refused with the ER guard; after schema-op, confirmation
and a completed `exec_sql`, it executes (shown on the `clean` wiring). -/
theorem guard_exec_py_witness :
    UnconfirmedSchema [GuardEvent.schemaOp] ∧
    (guardStep .agents (runGuard .agents initialGuardState [.schemaOp]) .execPyCall).2 =
      .refused (erRefusal
        "Guard: ER change detected. Please confirm the ER diagram before executing Python.") ∧
    ¬ UnconfirmedSchema [GuardEvent.schemaOp, .confirmER, .execSqlCall] ∧
    DbReadSince .clean [GuardEvent.schemaOp, .confirmER, .execSqlCall] ∧
    (guardStep .clean (runGuard .clean initialGuardState
      [.schemaOp, .confirmER, .execSqlCall]) .execPyCall).2 = .executed := by
  have hu : UnconfirmedSchema [GuardEvent.schemaOp] := ⟨[], [], rfl, List.not_mem_nil _⟩
  have hnu : ¬ UnconfirmedSchema [GuardEvent.schemaOp, .confirmER, .execSqlCall] := by
    rintro ⟨p, q, heq, hnm⟩
    rcases p with _ | ⟨a, _ | ⟨b, _ | ⟨c, p⟩⟩⟩ <;> simp_all
    exact hnm (heq ▸ List.mem_cons_self _ _)
  have hdb : DbReadSince .clean [GuardEvent.schemaOp, .confirmER, .execSqlCall] :=
    ⟨[.schemaOp, .confirmER], .execSqlCall, [], rfl, Or.inl rfl, by decide,
      List.not_mem_nil _⟩
  exact ⟨hu, (guard_exec_py .agents [.schemaOp]).1 hu, hnu, hdb,
    (guard_exec_py .clean [.schemaOp, .confirmER, .execSqlCall]).2.2.mpr ⟨hnu, hdb⟩⟩

end GuardWiring
